import Mathlib

/-!
Shallow embedding of `src/heart_rate_server.py`, a BLE heart-rate peripheral
demo: the measurement encoder, the periodic notification loop
(`send_heart_rates`), the server lifecycle (`start_server` / `main`), and the
`is_running` flag.  Machine bytes are `Nat` values in [0,255]; Python integers
are `Int`; a raised Python exception from a pure helper is `none`.
-/

/-- Heart Rate Service UUID (line 21 of the source). -/
def HEART_RATE_SERVICE_UUID : String := "0000180d-0000-1000-8000-00805f9b34fb"

/-- Heart Rate Measurement Characteristic UUID (line 23 of the source). -/
def HEART_RATE_MEASUREMENT_UUID : String := "00002a37-0000-1000-8000-00805f9b34fb"

/-- Python `struct.pack(..., a, b)` with format two unsigned bytes: produces the
two-byte sequence, or raises `struct.error` (modelled as `none`) unless each
argument fits in an unsigned byte, i.e. lies in [0,255]. -/
def structPackBB (a b : Int) : Option (List Nat) :=
  if 0 ≤ a ∧ a ≤ 255 ∧ 0 ≤ b ∧ b ≤ 255 then some [a.toNat, b.toNat] else none

/-- `HeartRateServer.create_heart_rate_data` (lines 29-40): flags byte is the
constant `0x01` (uint8 format, no sensor contact detected), followed by the
heart rate as an unsigned byte. -/
def create_heart_rate_data (bpm : Int) : Option (List Nat) :=
  structPackBB 0x01 bpm

/-- A Measurement Sample: heart-rate value and sensor-contact flag. -/
structure Measurement where
  bpm : Int
  contactDetected : Bool
deriving DecidableEq, Repr

/-- Encoding of a measurement as the code performs it: only the bpm is passed
to `create_heart_rate_data`; the measurement's contact flag has no parameter in
the code and is ignored by the encoder. -/
def encodeMeasurement (m : Measurement) : Option (List Nat) :=
  create_heart_rate_data m.bpm

/-- Modelled from the spec: decoding byte 1 of a wire payload yields the
heart-rate value (the source contains no decoder). -/
def decodeByte1 (payload : List Nat) : Option Nat :=
  payload[1]?

/-- A GATT characteristic as seen through the bleak server object: its UUID and
its attribute handle. -/
structure Characteristic where
  uuid : String
  handle : Nat
deriving DecidableEq, Repr

/-- A GATT service: its UUID and its characteristics. -/
structure Service where
  uuid : String
  characteristics : List Characteristic
deriving DecidableEq, Repr

/-- The bleak server object as `send_heart_rates` reads it: the list of
registered services. -/
structure BleakServerState where
  services : List Service
deriving DecidableEq, Repr

/-- The characteristic lookup of lines 52-59: scan the services for the first
one whose UUID is the Heart Rate Service UUID, then scan its characteristics
for the first one whose UUID is the Heart Rate Measurement UUID (the outer loop
breaks after the first matching service either way). -/
def findHrChar (server : BleakServerState) : Option Characteristic :=
  match server.services.find? (fun s => s.uuid == HEART_RATE_SERVICE_UUID) with
  | some s => s.characteristics.find? (fun c => c.uuid == HEART_RATE_MEASUREMENT_UUID)
  | none => none

/-- Python `random.randint(80, 120)` (line 46): a uniformly random integer in
[80,120] inclusive, modelled from an external random source value `r` as one of
the 41 values `80 + r % 41`. -/
def randint_80_120 (r : Nat) : Nat :=
  80 + r % 41

/-- The Measurement Sample one scheduler tick produces: bpm from
`random.randint(80, 120)`; the encoder's fixed flags byte 0x01 declares no
sensor contact, so the sample's contact flag is false. -/
def tickMeasurement (r : Nat) : Measurement :=
  { bpm := ((randint_80_120 r : Nat) : Int), contactDetected := false }

/-- Observable events of the notification loop. -/
inductive TickEvent where
  | notify (handle : Nat) (payload : List Nat)
  | notifyError
  | charNotFound
  | sleep (seconds : Nat)
deriving DecidableEq, Repr

/-- One iteration of the `while self.is_running` loop of `send_heart_rates`
(lines 44-73): draw a random heart rate, look up the characteristic, encode and
notify inside a try/except that absorbs any exception (`notifyRaises` injects a
transport-level delivery failure), then sleep 15 seconds unconditionally. -/
def send_heart_rates_tick (server : BleakServerState) (notifyRaises : Bool)
    (r : Nat) : List TickEvent :=
  (match findHrChar server with
   | some ch =>
     match encodeMeasurement (tickMeasurement r) with
     | some data =>
       if notifyRaises then [TickEvent.notifyError]
       else [TickEvent.notify ch.handle data]
     | none => [TickEvent.notifyError]
   | none => [TickEvent.charNotFound]) ++ [TickEvent.sleep 15]

/-- The `HeartRateServer` instance state: the `is_running` flag. -/
structure HeartRateServer where
  is_running : Bool
deriving DecidableEq, Repr

/-- `HeartRateServer.__init__` (lines 26-27): sets `is_running` to True. -/
def HeartRateServer.init : HeartRateServer :=
  { is_running := true }

/-- The `send_heart_rates` loop (lines 42-73): while `is_running` holds, run a
tick and recurse.  `fuel` is the external cancellation budget — the number of
iterations the event loop grants before the task is cancelled — since nothing
inside the loop ever clears the flag; `i` indexes ticks so that failure
injection and the random source can vary per tick.  Returns the event trace and
the final instance state. -/
def send_heart_rates (server : BleakServerState) (failAt : Nat → Bool)
    (rng : Nat → Nat) : Nat → Nat → HeartRateServer → List TickEvent × HeartRateServer
  | 0, _, st => ([], st)
  | fuel + 1, i, st =>
    if st.is_running then
      let evs := send_heart_rates_tick server (failAt i) (rng i)
      let rest := send_heart_rates server failAt rng fuel (i + 1) st
      (evs ++ rest.1, rest.2)
    else ([], st)

/-- Payloads of the notify events of a trace, in order. -/
def notifyPayloads : List TickEvent → List (List Nat)
  | [] => []
  | TickEvent.notify _ p :: rest => p :: notifyPayloads rest
  | _ :: rest => notifyPayloads rest

/-- Sleep durations of a trace, in order. -/
def sleepDurations : List TickEvent → List Nat
  | [] => []
  | TickEvent.sleep s :: rest => s :: sleepDurations rest
  | _ :: rest => sleepDurations rest

/-- Number of completed tick iterations in a trace (each iteration ends in
exactly one sleep event). -/
def countTicks (evs : List TickEvent) : Nat :=
  (sleepDurations evs).length

/-- The server configuration built in `start_server` (lines 93-100): one Heart
Rate service holding one Heart Rate Measurement characteristic, whose handle
`h` is assigned by the platform stack. -/
def hrServer (h : Nat) : BleakServerState :=
  { services := [{ uuid := HEART_RATE_SERVICE_UUID,
                   characteristics := [{ uuid := HEART_RATE_MEASUREMENT_UUID,
                                         handle := h }] }] }

/-- Environment scenarios that drive `start_server` to its different exit
paths. -/
inductive StartScenario where
  | unavailable
  | startRaises
  | interrupted (n : Nat)
deriving DecidableEq, Repr

/-- Observable events of `start_server` and `main`. -/
inductive ServerEvent where
  | printPlatformDiag
  | serverStart
  | schedulerStart
  | keepAliveSleep
  | taskCancel
  | serverStop
  | printStartFailure
deriving DecidableEq, Repr

/-- Modelled from the spec: the distinct `TransportUnavailable` error of the
error taxonomy (section 7).  The source never raises such an error (it prints
hints and returns), so this type exists only to compare the code's outcome with
the outcome the spec requires. -/
inductive StartError where
  | transportUnavailable
deriving DecidableEq, Repr

/-- `HeartRateServer.start_server` (lines 75-126) as an event trace plus a
normal-return-or-exception outcome, by environment scenario.
`unavailable`: `SERVER_AVAILABLE` is false (line 77), so the method prints
platform hints and returns.  `startRaises`: constructing or starting the bleak
server raises, the outer `except Exception` (lines 123-126) catches it, prints
hints and returns, without cancelling any task or calling `server.stop()`.
`interrupted n`: the server starts, the notification task is created, the
keep-alive loop (lines 110-111) sleeps `n` times, `KeyboardInterrupt` is
caught, and the `finally` block (lines 114-121) cancels the notification task
and then calls `server.stop()`.  Every scenario returns normally. -/
def start_server : StartScenario → List ServerEvent × Except StartError Unit
  | StartScenario.unavailable => ([ServerEvent.printPlatformDiag], Except.ok ())
  | StartScenario.startRaises => ([ServerEvent.printStartFailure], Except.ok ())
  | StartScenario.interrupted n =>
    ([ServerEvent.serverStart, ServerEvent.schedulerStart] ++
       List.replicate n ServerEvent.keepAliveSleep ++
       [ServerEvent.taskCancel, ServerEvent.serverStop],
     Except.ok ())

/-- `asyncio.run(main())` (lines 141-151): the process exit code is 0 when
`main` returns normally, nonzero when an exception escapes to the top level.
`main` only calls `check_platform_compatibility` (which prints) and then
`start_server`. -/
def processExitCode (s : StartScenario) : Nat :=
  match (start_server s).2 with
  | Except.ok _ => 0
  | Except.error _ => 1

/-- Bounds of the modelled `random.randint(80, 120)`. -/
theorem randint_80_120_bounds (r : Nat) :
    80 ≤ randint_80_120 r ∧ randint_80_120 r ≤ 120 := by
  unfold randint_80_120
  omega

/-- Encoding the per-tick measurement never raises: the bpm is in [80,120]. -/
theorem encodeMeasurement_tick (r : Nat) :
    encodeMeasurement (tickMeasurement r) = some [0x01, randint_80_120 r] := by
  show structPackBB 0x01 ((randint_80_120 r : Nat) : Int) =
    some [0x01, randint_80_120 r]
  unfold structPackBB
  have hb : ((randint_80_120 r : Nat) : Int) ≤ 255 := by
    exact_mod_cast (randint_80_120_bounds r).2.trans (by norm_num)
  rw [if_pos ⟨by norm_num, by norm_num, by positivity, hb⟩]
  simp

/-- The characteristic lookup succeeds on the configuration `start_server`
registers. -/
theorem findHrChar_hrServer (h : Nat) :
    findHrChar (hrServer h) =
      some { uuid := HEART_RATE_MEASUREMENT_UUID, handle := h } := rfl

/-- A tick against the registered configuration with no delivery failure:
one notify call with the 2-byte payload, then the 15 second sleep. -/
theorem send_heart_rates_tick_hr_ok (h r : Nat) :
    send_heart_rates_tick (hrServer h) false r =
      [TickEvent.notify h [0x01, randint_80_120 r], TickEvent.sleep 15] := by
  unfold send_heart_rates_tick
  rw [findHrChar_hrServer, encodeMeasurement_tick]
  rfl

/-- A tick against the registered configuration whose notify raises: the
exception is absorbed and the 15 second sleep still happens. -/
theorem send_heart_rates_tick_hr_fail (h r : Nat) :
    send_heart_rates_tick (hrServer h) true r =
      [TickEvent.notifyError, TickEvent.sleep 15] := by
  unfold send_heart_rates_tick
  rw [findHrChar_hrServer, encodeMeasurement_tick]
  rfl

/-- Unfolding one iteration of the notification loop. -/
theorem send_heart_rates_succ (server : BleakServerState) (failAt : Nat → Bool)
    (rng : Nat → Nat) (fuel i : Nat) :
    send_heart_rates server failAt rng (fuel + 1) i HeartRateServer.init =
      (send_heart_rates_tick server (failAt i) (rng i) ++
         (send_heart_rates server failAt rng fuel (i + 1) HeartRateServer.init).1,
       (send_heart_rates server failAt rng fuel (i + 1) HeartRateServer.init).2) := rfl

/-- Closed form of the notification loop: the trace is the concatenation of the
per-tick traces, and the instance state comes back unchanged. -/
theorem send_heart_rates_eq (server : BleakServerState) (failAt : Nat → Bool)
    (rng : Nat → Nat) (fuel : Nat) : ∀ i : Nat,
    send_heart_rates server failAt rng fuel i HeartRateServer.init =
      (((List.range' i fuel).map
          (fun j => send_heart_rates_tick server (failAt j) (rng j))).flatten,
       HeartRateServer.init) := by
  induction fuel with
  | zero => intro i; rfl
  | succ n ih =>
    intro i
    rw [send_heart_rates_succ, ih (i + 1)]
    rfl

/-- Sleep durations distribute over trace concatenation. -/
theorem sleepDurations_append (a b : List TickEvent) :
    sleepDurations (a ++ b) = sleepDurations a ++ sleepDurations b := by
  induction a with
  | nil => rfl
  | cons e rest ih => cases e <;> simp [sleepDurations, ih]

/-- Tick counts add over trace concatenation. -/
theorem countTicks_append (a b : List TickEvent) :
    countTicks (a ++ b) = countTicks a + countTicks b := by
  unfold countTicks
  rw [sleepDurations_append, List.length_append]

/-- Every single loop iteration counts as exactly one tick, whatever the
lookup, encoding, or delivery outcome. -/
theorem countTicks_tick (server : BleakServerState) (b : Bool) (r : Nat) :
    countTicks (send_heart_rates_tick server b r) = 1 := by
  unfold send_heart_rates_tick
  cases hf : findHrChar server with
  | none => rfl
  | some ch =>
    cases he : encodeMeasurement (tickMeasurement r) with
    | none => rfl
    | some d => cases b <;> rfl

/-- C1: for every bpm in [0,255], encoding a measurement with
contact-detected = false produces exactly the 2-byte payload [0x01, bpm], and
decoding byte 1 of that payload recovers bpm exactly. -/
theorem create_heart_rate_data_roundtrip (bpm : Nat) (h : bpm ≤ 255) :
    encodeMeasurement { bpm := (bpm : Int), contactDetected := false } =
      some [0x01, bpm] ∧
    decodeByte1 [0x01, bpm] = some bpm := by
  constructor
  · show structPackBB 0x01 (bpm : Int) = some [0x01, bpm]
    unfold structPackBB
    rw [if_pos ⟨by norm_num, by norm_num, by positivity, by exact_mod_cast h⟩]
    simp
  · rfl

/-- Witness for C1 at bpm = 100. -/
theorem create_heart_rate_data_roundtrip_witness :
    (100 : Nat) ≤ 255 ∧
    (encodeMeasurement { bpm := (100 : Int), contactDetected := false } =
       some [0x01, 100] ∧
     decodeByte1 [0x01, 100] = some 100) :=
  ⟨by decide, create_heart_rate_data_roundtrip 100 (by decide)⟩

/-- C8 counterexample: encoding a measurement with contact-detected = true at
bpm = 100 produces [0x01, 100], not [0x06, 100]: the code's encoder has no
contact parameter and always emits the flags byte 0x01. -/
theorem encode_contact_true_not_0x06 :
    encodeMeasurement { bpm := (100 : Int), contactDetected := true } =
      some [0x01, 100] ∧
    some [(0x01 : Nat), 100] ≠ some [(0x06 : Nat), 100] := by
  decide

/-- C8 amended: for every bpm in [0,255] and either value of the contact flag,
the encoder produces exactly [0x01, bpm]; no input makes it produce a 0x06
flags byte. -/
theorem encode_ignores_contact (bpm : Nat) (c : Bool) (h : bpm ≤ 255) :
    encodeMeasurement { bpm := (bpm : Int), contactDetected := c } =
      some [0x01, bpm] := by
  show structPackBB 0x01 (bpm : Int) = some [0x01, bpm]
  unfold structPackBB
  rw [if_pos ⟨by norm_num, by norm_num, by positivity, by exact_mod_cast h⟩]
  simp

/-- Witness for the amended C8 at bpm = 100, contact = true. -/
theorem encode_ignores_contact_witness :
    (100 : Nat) ≤ 255 ∧
    encodeMeasurement { bpm := (100 : Int), contactDetected := true } =
      some [0x01, 100] :=
  ⟨by decide, encode_ignores_contact 100 true (by decide)⟩

/-- C9: `create_heart_rate_data` raises `struct.error` (returns `none`) exactly
when bpm is outside [0,255]; inside the range it returns the 2-byte payload. -/
theorem create_heart_rate_data_range (bpm : Int) :
    (bpm < 0 ∨ 255 < bpm → create_heart_rate_data bpm = none) ∧
    (0 ≤ bpm → bpm ≤ 255 → create_heart_rate_data bpm = some [0x01, bpm.toNat]) := by
  unfold create_heart_rate_data structPackBB
  constructor
  · intro h
    rw [if_neg]
    intro hc
    rcases hc with ⟨_, _, h3, h4⟩
    omega
  · intro h1 h2
    rw [if_pos ⟨by norm_num, by norm_num, h1, h2⟩]
    rfl

/-- Witness for C9: a too-large bpm, a negative bpm, and an in-range bpm. -/
theorem create_heart_rate_data_range_witness :
    create_heart_rate_data 300 = none ∧
    create_heart_rate_data (-1) = none ∧
    create_heart_rate_data 100 = some [0x01, 100] :=
  ⟨(create_heart_rate_data_range 300).1 (by decide),
   (create_heart_rate_data_range (-1)).1 (by decide),
   (create_heart_rate_data_range 100).2 (by decide) (by decide)⟩

/-- C4: with the registered configuration and no delivery failures, three
iterations of the scheduler produce exactly three notify calls, each with the
2-byte payload [0x01, bpm] for a bpm in [80,120], and each iteration sleeps the
fixed 15-second interval. -/
theorem scheduler_three_ticks (h : Nat) (rng : Nat → Nat) :
    notifyPayloads
      (send_heart_rates (hrServer h) (fun _ => false) rng 3 0 HeartRateServer.init).1 =
      [[0x01, randint_80_120 (rng 0)], [0x01, randint_80_120 (rng 1)],
       [0x01, randint_80_120 (rng 2)]] ∧
    sleepDurations
      (send_heart_rates (hrServer h) (fun _ => false) rng 3 0 HeartRateServer.init).1 =
      [15, 15, 15] ∧
    (80 ≤ randint_80_120 (rng 0) ∧ randint_80_120 (rng 0) ≤ 120) ∧
    (80 ≤ randint_80_120 (rng 1) ∧ randint_80_120 (rng 1) ≤ 120) ∧
    (80 ≤ randint_80_120 (rng 2) ∧ randint_80_120 (rng 2) ≤ 120) := by
  have e := send_heart_rates_eq (hrServer h) (fun _ => false) rng 3 0
  rw [show List.range' 0 3 = [0, 1, 2] from rfl] at e
  simp only [List.map_cons, List.map_nil, List.flatten, send_heart_rates_tick_hr_ok,
    List.append_nil] at e
  refine ⟨?_, ?_, randint_80_120_bounds (rng 0), randint_80_120_bounds (rng 1),
    randint_80_120_bounds (rng 2)⟩
  · rw [e]; rfl
  · rw [e]; rfl

/-- C5: a transport-level delivery failure in the first tick is absorbed; the
scheduler still sleeps the 15-second interval and performs the next tick, which
delivers normally. -/
theorem delivery_failure_isolated (h : Nat) (rng : Nat → Nat) :
    (send_heart_rates (hrServer h) (fun i => i == 0) rng 2 0 HeartRateServer.init).1 =
      [TickEvent.notifyError, TickEvent.sleep 15,
       TickEvent.notify h [0x01, randint_80_120 (rng 1)], TickEvent.sleep 15] := by
  have e := send_heart_rates_eq (hrServer h) (fun i => i == 0) rng 2 0
  rw [show List.range' 0 2 = [0, 1] from rfl] at e
  simp only [List.map_cons, List.map_nil, List.flatten,
    show ((0 : Nat) == 0) = true from rfl, show ((1 : Nat) == 0) = false from rfl,
    send_heart_rates_tick_hr_ok, send_heart_rates_tick_hr_fail, List.append_nil] at e
  rw [e]
  rfl

/-- C6 counterexample: the measurement sample a tick produces has
contact-detected = false, not true — the emitted flags byte is 0x01, whose
sensor-contact-detected bit (bit 1) is clear.  Shown at random source value 0,
where the sample is bpm 80. -/
theorem sample_contact_not_detected :
    send_heart_rates_tick (hrServer 3) false 0 =
      [TickEvent.notify 3 [0x01, 80], TickEvent.sleep 15] ∧
    tickMeasurement 0 = { bpm := 80, contactDetected := false } ∧
    (0x01 : Nat).testBit 1 = false ∧
    false ≠ true := by
  decide

/-- C6 amended: every measurement sample a scheduler tick produces has a bpm in
[80,120] inclusive and contact-detected = false. -/
theorem tick_sample_range_no_contact (r : Nat) :
    80 ≤ (tickMeasurement r).bpm ∧ (tickMeasurement r).bpm ≤ 120 ∧
    (tickMeasurement r).contactDetected = false := by
  refine ⟨?_, ?_, rfl⟩
  · show (80 : Int) ≤ ((randint_80_120 r : Nat) : Int)
    exact_mod_cast (randint_80_120_bounds r).1
  · show ((randint_80_120 r : Nat) : Int) ≤ (120 : Int)
    exact_mod_cast (randint_80_120_bounds r).2

/-- C2 counterexample: with the transport unavailable, `start_server` returns
normally (after printing a diagnostic); it does not fail with the distinct
`TransportUnavailable` error. -/
theorem start_unavailable_no_error :
    (start_server StartScenario.unavailable).2 = Except.ok () ∧
    (Except.ok () : Except StartError Unit) ≠
      Except.error StartError.transportUnavailable :=
  ⟨rfl, fun hc => Except.noConfusion hc⟩

/-- C2 amended: with the transport unavailable, `start_server` prints the
platform diagnostic and returns normally without crashing, the notification
scheduler never starts (its start event is absent, so zero ticks are
observed), and no task or transport action is pending, so a subsequent stop is
trivially a no-op. -/
theorem start_unavailable_amended :
    (start_server StartScenario.unavailable).1 = [ServerEvent.printPlatformDiag] ∧
    ServerEvent.schedulerStart ∉ (start_server StartScenario.unavailable).1 ∧
    (start_server StartScenario.unavailable).2 = Except.ok () := by
  refine ⟨rfl, ?_, rfl⟩
  decide

/-- C3 counterexample: on the startup-failure exit path (the bleak server
raises while being constructed or started), the exception is caught and
logged, but `server.stop()` is never called and no task is cancelled. -/
theorem startup_failure_no_stop :
    ServerEvent.serverStop ∉ (start_server StartScenario.startRaises).1 ∧
    ServerEvent.taskCancel ∉ (start_server StartScenario.startRaises).1 := by
  decide

/-- C3 amended: once the keep-alive loop is reached, every exit cancels the
notification task and closes the transport, with `server.stop()` as the final
action; but on a startup failure partway through, the error is caught and
logged without cancelling or stopping anything. -/
theorem stop_on_interrupt_exit (n : Nat) :
    ServerEvent.taskCancel ∈ (start_server (StartScenario.interrupted n)).1 ∧
    ((start_server (StartScenario.interrupted n)).1).getLast? =
      some ServerEvent.serverStop ∧
    ServerEvent.serverStop ∉ (start_server StartScenario.startRaises).1 := by
  refine ⟨?_, ?_, by decide⟩
  · simp [start_server]
  · show ([ServerEvent.serverStart, ServerEvent.schedulerStart] ++
        List.replicate n ServerEvent.keepAliveSleep ++
        [ServerEvent.taskCancel, ServerEvent.serverStop]).getLast? =
      some ServerEvent.serverStop
    rw [show [ServerEvent.taskCancel, ServerEvent.serverStop] =
          [ServerEvent.taskCancel] ++ [ServerEvent.serverStop] from rfl,
      ← List.append_assoc, List.getLast?_concat]

/-- C7 counterexample: the process exits with code 0 on startup failure — both
with the transport unavailable and with a bleak startup exception — not with a
nonzero code. -/
theorem exit_code_zero_on_failure :
    processExitCode StartScenario.unavailable = 0 ∧
    processExitCode StartScenario.startRaises = 0 :=
  ⟨rfl, rfl⟩

/-- C7 amended: the command-line program exits with code 0 on every path —
clean shutdown by interrupt and also startup failure — because every failure is
caught and printed inside `start_server`, so `main` always returns normally. -/
theorem exit_code_always_zero (s : StartScenario) : processExitCode s = 0 := by
  cases s <;> rfl

/-- C10: `is_running` is true at construction, nothing ever clears it, and the
notification loop never exits through the flag: it runs exactly one tick per
unit of cancellation budget, for every budget, and the flag is still true at
cancellation. -/
theorem is_running_never_cleared (server : BleakServerState) (failAt : Nat → Bool)
    (rng : Nat → Nat) (fuel i : Nat) :
    HeartRateServer.init.is_running = true ∧
    (send_heart_rates server failAt rng fuel i HeartRateServer.init).2.is_running = true ∧
    countTicks (send_heart_rates server failAt rng fuel i HeartRateServer.init).1 = fuel := by
  refine ⟨rfl, ?_⟩
  induction fuel generalizing i with
  | zero => exact ⟨rfl, rfl⟩
  | succ n ih =>
    rw [send_heart_rates_succ]
    obtain ⟨ih1, ih2⟩ := ih (i + 1)
    refine ⟨ih1, ?_⟩
    rw [countTicks_append, countTicks_tick, ih2]
    omega
